import Mathlib

/-
Verification of the pushpak-ai backend against its specification.

Part 1 models the similarity-registration step of `src/backend/rigger.py`
(`icp_align`): vertices are 3-vectors, matrices are 3x3, and the 4x4
homogeneous transform built with Blender's `mathutils` is represented by its
linear part together with its translation column (the bottom row of every
matrix the code builds is (0,0,0,1)).  Real/float arithmetic is modelled over
the rationals; the singular value decomposition performed by `np.linalg.svd`
is modelled relationally (any factorisation H = U * S * Vt with orthogonal
U, Vt and a descending non-negative diagonal S), and the square roots taken
for the isotropic scale are modelled relationally by their defining equations.

Part 2 models the job orchestration of `src/backend/pipeline.py` and
`src/backend/server.py`: a filesystem is the set of existing paths, external
`blender` subprocess invocations are oracles giving exit status, whether the
declared output file exists afterwards, and the stderr text, and the Flask
endpoints and the background worker are state transformers on the in-memory
task table and the filesystem.
-/

/-- A 3D point / vector with rational coordinates (models a numpy row of 3
floats). -/
structure Vec3 where
  x : ℚ
  y : ℚ
  z : ℚ
deriving DecidableEq, Repr

def Vec3.add (a b : Vec3) : Vec3 := ⟨a.x + b.x, a.y + b.y, a.z + b.z⟩

def Vec3.sub (a b : Vec3) : Vec3 := ⟨a.x - b.x, a.y - b.y, a.z - b.z⟩

def Vec3.smul (c : ℚ) (v : Vec3) : Vec3 := ⟨c * v.x, c * v.y, c * v.z⟩

def Vec3.zero : Vec3 := ⟨0, 0, 0⟩

def Vec3.dot (a b : Vec3) : ℚ := a.x * b.x + a.y * b.y + a.z * b.z

/-- Squared euclidean norm, `(v ** 2).sum()` in the numpy code. -/
def Vec3.normSq (v : Vec3) : ℚ := v.dot v

/-- A 3x3 matrix given by its rows (numpy's row-major layout). -/
structure Mat3 where
  r0 : Vec3
  r1 : Vec3
  r2 : Vec3
deriving DecidableEq, Repr

def Mat3.transpose (m : Mat3) : Mat3 :=
  ⟨⟨m.r0.x, m.r1.x, m.r2.x⟩, ⟨m.r0.y, m.r1.y, m.r2.y⟩, ⟨m.r0.z, m.r1.z, m.r2.z⟩⟩

/-- Matrix-times-column-vector. -/
def Mat3.mulVec (m : Mat3) (v : Vec3) : Vec3 := ⟨m.r0.dot v, m.r1.dot v, m.r2.dot v⟩

/-- Matrix product (`@` on numpy 3x3 arrays). -/
def Mat3.mul (a b : Mat3) : Mat3 :=
  ⟨⟨a.r0.dot b.transpose.r0, a.r0.dot b.transpose.r1, a.r0.dot b.transpose.r2⟩,
   ⟨a.r1.dot b.transpose.r0, a.r1.dot b.transpose.r1, a.r1.dot b.transpose.r2⟩,
   ⟨a.r2.dot b.transpose.r0, a.r2.dot b.transpose.r1, a.r2.dot b.transpose.r2⟩⟩

def Mat3.add (a b : Mat3) : Mat3 := ⟨a.r0.add b.r0, a.r1.add b.r1, a.r2.add b.r2⟩

def Mat3.smul (c : ℚ) (m : Mat3) : Mat3 := ⟨Vec3.smul c m.r0, Vec3.smul c m.r1, Vec3.smul c m.r2⟩

def Mat3.zero : Mat3 := ⟨Vec3.zero, Vec3.zero, Vec3.zero⟩

def Mat3.id : Mat3 := ⟨⟨1, 0, 0⟩, ⟨0, 1, 0⟩, ⟨0, 0, 1⟩⟩

/-- Determinant of a 3x3 matrix (`np.linalg.det`). -/
def Mat3.det (m : Mat3) : ℚ :=
  m.r0.x * (m.r1.y * m.r2.z - m.r1.z * m.r2.y)
    - m.r0.y * (m.r1.x * m.r2.z - m.r1.z * m.r2.x)
    + m.r0.z * (m.r1.x * m.r2.y - m.r1.y * m.r2.x)

/-- `Vt[-1, :] *= -1` : negate the last row. -/
def Mat3.negLastRow (m : Mat3) : Mat3 := ⟨m.r0, m.r1, Vec3.smul (-1) m.r2⟩

/-- Outer product `c dᵀ`; `template_centered.T @ target_centered` is the sum of
these over corresponding rows. -/
def Mat3.outer (c d : Vec3) : Mat3 := ⟨Vec3.smul c.x d, Vec3.smul c.y d, Vec3.smul c.z d⟩

/-- `Mᵀ M = 1`, the defining property of the orthogonal factors returned by
`np.linalg.svd`. -/
def Mat3.IsOrthogonal (m : Mat3) : Prop := m.transpose.mul m = Mat3.id

instance (m : Mat3) : Decidable m.IsOrthogonal := by
  unfold Mat3.IsOrthogonal; infer_instance

def Mat3.IsDiagonal (m : Mat3) : Prop :=
  m.r0.y = 0 ∧ m.r0.z = 0 ∧ m.r1.x = 0 ∧ m.r1.z = 0 ∧ m.r2.x = 0 ∧ m.r2.y = 0

instance (m : Mat3) : Decidable m.IsDiagonal := by
  unfold Mat3.IsDiagonal; infer_instance

/-- `U, S, Vt = np.linalg.svd(H)` modelled relationally: `U` and `Vt` are
orthogonal, `S` is diagonal with non-negative entries in descending order, and
`H = U S Vt`. -/
def IsSVD (H U S Vt : Mat3) : Prop :=
  U.IsOrthogonal ∧ Vt.IsOrthogonal ∧ S.IsDiagonal ∧
    0 ≤ S.r2.z ∧ S.r2.z ≤ S.r1.y ∧ S.r1.y ≤ S.r0.x ∧
    H = (U.mul S).mul Vt

instance (H U S Vt : Mat3) : Decidable (IsSVD H U S Vt) := by
  unfold IsSVD; infer_instance

/-- `target_verts.mean(axis=0)` : sum of the points. -/
def vecSum (ps : List Vec3) : Vec3 := ps.foldr Vec3.add Vec3.zero

/-- Centroid of a point list (`.mean(axis=0)`). -/
def centroid (ps : List Vec3) : Vec3 := Vec3.smul (1 / (ps.length : ℚ)) (vecSum ps)

/-- `verts - center` : translate the points to be zero-centered. -/
def centered (ps : List Vec3) : List Vec3 := ps.map (fun p => p.sub (centroid ps))

/-- `((vs ** 2).sum(axis=1)).mean()` : mean squared norm of the rows. -/
def meanSq (ps : List Vec3) : ℚ := (ps.map Vec3.normSq).foldr (· + ·) 0 / (ps.length : ℚ)

/-- The code computes `t_scale = sqrt(meanSq target_centered)`,
`s_scale = sqrt(meanSq template_centered)` and
`scale = t_scale / s_scale if s_scale > 0 else 1.0`.  Over the reals,
`sqrt m > 0` iff `m > 0` (the mean of squares is never negative), and for
`m > 0` the quotient `sqrt t / sqrt m` is the unique `s ≥ 0` with
`s^2 * m = t`.  This predicate characterises the computed scale without
leaving the rationals. -/
def ScaleSpec (templateCentered targetCentered : List Vec3) (s : ℚ) : Prop :=
  if 0 < meanSq templateCentered then
    0 ≤ s ∧ s * s * meanSq templateCentered = meanSq targetCentered
  else s = 1

instance (tc tg : List Vec3) (s : ℚ) : Decidable (ScaleSpec tc tg s) := by
  unfold ScaleSpec; infer_instance

/-- `H = template_centered.T @ target_centered` for equal-length point lists:
the sum of the outer products of corresponding centered points. -/
def covH (templateCentered targetCentered : List Vec3) : Mat3 :=
  ((templateCentered.zip targetCentered).map (fun p => Mat3.outer p.1 p.2)).foldr
    Mat3.add Mat3.zero

/-- The rotation computed from the SVD factors, with the reflection guard:
`R = Vt.T @ U.T; if det(R) < 0: Vt[-1, :] *= -1; R = Vt.T @ U.T`. -/
def icpRotation (U Vt : Mat3) : Mat3 :=
  let R := Vt.transpose.mul U.transpose
  if R.det < 0 then Vt.negLastRow.transpose.mul U.transpose else R

/-- A 4x4 homogeneous matrix whose bottom row is `(0,0,0,1)`, represented by
its 3x3 linear block and its translation column (`mathutils` stores the
translation in the last column; `Matrix.to_4x4`, setting `.translation`, and
left-multiplying by `Matrix.Scale(s, 4)` all preserve the bottom row). -/
structure Aff where
  linear : Mat3
  trans : Vec3
deriving DecidableEq, Repr

/-- Applying the homogeneous matrix to a 3D point (`mat4 @ vec3` in
`mathutils`: the point is promoted with `w = 1` and the affine image is
returned). -/
def Aff.apply (T : Aff) (p : Vec3) : Vec3 := (T.linear.mulVec p).add T.trans

/-- `vec3 @ mat4` in `mathutils`: row-vector multiplication.  The vector is
promoted with `w = 1`; because the bottom row of the matrix is `(0,0,0,1)`
the three spatial components of the result are `linearᵀ v` (the translation
column only feeds the homogeneous component, which the code's subsequent
3-vector arithmetic consumes). -/
def rowVecMul (v : Vec3) (T : Aff) : Vec3 := T.linear.transpose.mulVec v

/-- `Matrix.Scale(s, 4) @ T` : left multiplication by `diag(s, s, s, 1)`,
which scales both the linear block and the translation column. -/
def scaleMat4Mul (s : ℚ) (T : Aff) : Aff := ⟨Mat3.smul s T.linear, Vec3.smul s T.trans⟩

/-- Lines 131-135 of `src/backend/rigger.py`:
`transform = Matrix(R.tolist()).to_4x4()` ;
`transform.translation = Vector(t_center) - Vector(s_center) @ transform` ;
`transform = Matrix.Scale(scale, 4) @ transform`. -/
def buildTransform (R : Mat3) (scale : ℚ) (tCenter sCenter : Vec3) : Aff :=
  let t0 : Aff := ⟨R, Vec3.zero⟩
  let t1 : Aff := ⟨t0.linear, tCenter.sub (rowVecMul sCenter t0)⟩
  scaleMat4Mul scale t1

/-- The SVD factors and the scale chosen in one run of `icp_align` (the two
quantities the code obtains from `np.linalg.svd` and `np.sqrt`, which are
modelled relationally). -/
structure IcpData where
  U : Mat3
  S : Mat3
  Vt : Mat3
  scale : ℚ
deriving DecidableEq, Repr

/-- One run of `icp_align(target_obj, template_obj)` from
`src/backend/rigger.py` producing the transform `T`: both vertex lists are
non-empty (line 97 raises otherwise), they have equal length (`numpy` matrix
multiplication on line 121 requires it), `d` holds a valid SVD of the
cross-covariance and a scale satisfying the scale equations, and `T` is the
4x4 transform built on lines 131-135. -/
def IcpRun (targetVerts templateVerts : List Vec3) (d : IcpData) (T : Aff) : Prop :=
  targetVerts ≠ [] ∧ templateVerts ≠ [] ∧
    targetVerts.length = templateVerts.length ∧
    IsSVD (covH (centered templateVerts) (centered targetVerts)) d.U d.S d.Vt ∧
    ScaleSpec (centered templateVerts) (centered targetVerts) d.scale ∧
    T = buildTransform (icpRotation d.U d.Vt) d.scale (centroid targetVerts)
      (centroid templateVerts)

instance (tg tp : List Vec3) (d : IcpData) (T : Aff) : Decidable (IcpRun tg tp d T) := by
  unfold IcpRun; infer_instance

/-
Part 2: the job orchestration of `src/backend/pipeline.py` and
`src/backend/server.py`.  `os.path` file names are modelled structurally: a
`FileName` keeps the part before the final dot (the stem) and the extension
after it separately, so `os.path.splitext` is the projection to the stem and
the code's string concatenations build the pieces directly; a directory is
its list of components and `os.path.join`/`os.path.dirname`/`os.path.basename`
are record operations.  A filesystem is the list of existing paths.  Each
`subprocess.run(..., timeout=...)` call on `blender` is an oracle
(`ProcResult`): either it completes with an exit status, a flag saying whether
the declared output file exists afterwards, and its stderr text, or it
exceeds the timeout (raising `subprocess.TimeoutExpired`).
-/

/-- A file name, split at the final dot: `stem` before it, `ext` after it
(without the dot). -/
structure FileName where
  stem : String
  ext : String
deriving DecidableEq, Repr

/-- A path: the directory components and the file name. -/
structure FPath where
  dir : List String
  name : FileName
deriving DecidableEq, Repr

/-- The filesystem: the list of files that currently exist. -/
abbrev FS := List FPath

/-- `os.remove` (and the effect of `if os.path.exists(p): os.remove(p)`). -/
def fsRemove (fs : FS) (p : FPath) : FS := fs.filter (fun q => decide (q ≠ p))

instance {ε α : Type} [DecidableEq ε] [DecidableEq α] : DecidableEq (Except ε α) := fun a b =>
  match a, b with
  | .ok x, .ok y =>
    if h : x = y then isTrue (by rw [h]) else isFalse (fun c => by cases c; exact h rfl)
  | .error x, .error y =>
    if h : x = y then isTrue (by rw [h]) else isFalse (fun c => by cases c; exact h rfl)
  | .ok _, .error _ => isFalse (fun c => by cases c)
  | .error _, .ok _ => isFalse (fun c => by cases c)

/-- Outcome of one `subprocess.run([...], capture_output=True, text=True,
timeout=...)` invocation of the external engine. -/
inductive ProcResult where
  | completed (returncode : Int) (producesOutput : Bool) (stderr : String)
  | timedOut
deriving DecidableEq, Repr

/-- The exceptions `run_pipeline` can raise (`RuntimeError` messages from
`pipeline.py`, plus a propagated `subprocess.TimeoutExpired`). -/
inductive PipeError where
  | preprocessFailed (stderr : String)
  | preprocessNoOutput
  | riggingFailed (stderr : String)
  | riggingOutputMissing
  | timeout (seconds : Nat)
deriving DecidableEq, Repr

/-- `str(e)` for the caught exception, stored in the task's error field. -/
def PipeError.toMessage : PipeError → String
  | .preprocessFailed s => "Preprocessing failed: " ++ s
  | .preprocessNoOutput => "Preprocessing did not produce output file"
  | .riggingFailed s => "Rigging failed: " ++ s
  | .riggingOutputMissing => "Rigging succeeded but output file missing"
  | .timeout secs => "Command timed out after " ++ toString secs ++ " seconds"

/-- `timeout=300` on the preprocessing `subprocess.run` call. -/
def prepareTimeoutSeconds : Nat := 300

/-- `timeout=600` on the rigging `subprocess.run` call. -/
def rigTimeoutSeconds : Nat := 600

/-- `BASE_DIR = os.path.dirname(__file__)` (an abstract location). -/
def BASE_DIR : List String := ["backend"]

/-- `os.path.join(tempfile.gettempdir(), 'preprocess_blender.py')`. -/
def scriptPath : FPath := ⟨["tmp"], ⟨"preprocess_blender", "py"⟩⟩

/-- `output_path = os.path.join(output_dir, f"(name)_prepared.glb")` where
`name` is `os.path.splitext(os.path.basename(input_path))[0]`. -/
def preparedPathFor (inputPath : FPath) (outputDir : List String) : FPath :=
  ⟨outputDir, ⟨inputPath.name.stem ++ "_prepared", "glb"⟩⟩

/-- `rigged_path = os.path.join(output_dir, 'rigged_temp.glb')`. -/
def riggedTempPath (outputDir : List String) : FPath :=
  ⟨outputDir, ⟨"rigged_temp", "glb"⟩⟩

/-- `final_path = os.path.join(output_dir, 'final_rigged.glb')`. -/
def finalRiggedPath (outputDir : List String) : FPath :=
  ⟨outputDir, ⟨"final_rigged", "glb"⟩⟩

/-- `prepare_for_rigging(input_path, output_dir)` from `pipeline.py`: writes
the temporary Blender script, runs `blender --background` with a 300 second
timeout, raises on non-zero status or missing output, and removes the script
in the `finally` block on every path.  Returns the filesystem afterwards
together with the prepared path or the raised error. -/
def prepare_for_rigging (proc : ProcResult) (inputPath : FPath) (outputDir : List String)
    (fs : FS) : FS × Except PipeError FPath :=
  let outputPath := preparedPathFor inputPath outputDir
  let fs1 := scriptPath :: fs
  match proc with
  | .timedOut => (fsRemove fs1 scriptPath, .error (.timeout prepareTimeoutSeconds))
  | .completed rc out stderr =>
    let fs2 := if out then outputPath :: fs1 else fs1
    if rc ≠ 0 then (fsRemove fs2 scriptPath, .error (.preprocessFailed stderr))
    else if outputPath ∈ fs2 then (fsRemove fs2 scriptPath, .ok outputPath)
    else (fsRemove fs2 scriptPath, .error .preprocessNoOutput)

/-- The outcomes of the two external engine invocations made by one
`run_pipeline` call. -/
structure PipelineProcs where
  prepare : ProcResult
  rig : ProcResult
deriving DecidableEq, Repr

/-- `optimize_for_web(input_path, output_path)`: `shutil.copy2` then return
the output path. -/
def optimize_for_web (inputPath outputPath : FPath) (fs : FS) : FS × FPath :=
  (outputPath :: fs, outputPath)

/-- `run_pipeline(uploaded_file_path, output_dir, template_path)` from
`pipeline.py`: preprocess, rig with a 600 second timeout (raising on non-zero
status or missing output), optimize, then remove the prepared and rigged
intermediates — the removal happens only on this success path, since an
exception raised earlier propagates immediately. -/
def run_pipeline (procs : PipelineProcs) (uploadedFilePath : FPath)
    (outputDir : List String) (template_path : FPath) (fs : FS) :
    FS × Except PipeError FPath :=
  match prepare_for_rigging procs.prepare uploadedFilePath outputDir fs with
  | (fs1, .error e) => (fs1, .error e)
  | (fs1, .ok preparedPath) =>
    let riggedPath := riggedTempPath outputDir
    match procs.rig with
    | .timedOut => (fs1, .error (.timeout rigTimeoutSeconds))
    | .completed rc out stderr =>
      let fs2 := if out then riggedPath :: fs1 else fs1
      if rc ≠ 0 then (fs2, .error (.riggingFailed stderr))
      else if riggedPath ∈ fs2 then
        let r := optimize_for_web riggedPath (finalRiggedPath outputDir) fs2
        let fs4 := fsRemove r.1 preparedPath
        let fs5 := fsRemove fs4 riggedPath
        (fs5, .ok r.2)
      else (fs2, .error .riggingOutputMissing)

/-- A task-table entry (`tasks[task_id]` in `server.py`). -/
inductive TaskState where
  | processing
  | success (output : FPath)
  | failure (error : String)
deriving DecidableEq, Repr

def TaskState.isTerminal : TaskState → Bool
  | .processing => false
  | .success _ => true
  | .failure _ => true

/-- The in-memory task store `tasks = {}`. -/
abbrev Tasks := List (String × TaskState)

/-- `tasks[task_id] = st`. -/
def setTask (tasks : Tasks) (id : String) (st : TaskState) : Tasks :=
  (id, st) :: tasks.filter (fun p => decide (p.1 ≠ id))

/-- `tasks.get(task_id)`. -/
def getTask (tasks : Tasks) (id : String) : Option TaskState :=
  (tasks.find? (fun p => decide (p.1 = id))).map Prod.snd

/-- `run_pipeline_task(input_path, template_path, output_path, task_id)` from
`server.py`: run the pipeline with `output_dir = os.path.dirname(output_path)`;
on success copy the final file to `output_path` (when they differ) and record
SUCCESS, on any exception record FAILURE with `str(e)`; in both cases the
`finally` block removes the uploaded input file. -/
def run_pipeline_task (procs : PipelineProcs) (inputPath templatePath outputPath : FPath)
    (taskId : String) (tasks : Tasks) (fs : FS) : Tasks × FS :=
  match run_pipeline procs inputPath outputPath.dir templatePath fs with
  | (fs1, .ok finalPath) =>
    let fs2 := if finalPath ≠ outputPath then outputPath :: fs1 else fs1
    (setTask tasks taskId (.success outputPath), fsRemove fs2 inputPath)
  | (fs1, .error e) =>
    (setTask tasks taskId (.failure e.toMessage), fsRemove fs1 inputPath)

/-- `UPLOAD_FOLDER`, `OUTPUT_FOLDER`, `TEMPLATE_FOLDER` from `server.py`. -/
def UPLOAD_FOLDER : List String := BASE_DIR ++ ["uploads"]

def OUTPUT_FOLDER : List String := BASE_DIR ++ ["outputs"]

def TEMPLATE_FOLDER : List String := BASE_DIR ++ ["templates"]

def ALLOWED_EXT : List String := ["glb", "gltf", "obj", "fbx"]

/-- `MAX_FILE_SIZE = 100 * 1024 * 1024`. -/
def MAX_FILE_SIZE : Nat := 100 * 1024 * 1024

/-- `os.path.join(TEMPLATE_FOLDER, 'human.glb')`. -/
def templatePath : FPath := ⟨TEMPLATE_FOLDER, ⟨"human", "glb"⟩⟩

/-- `get_file_hash(data)`: `hashlib.sha256(data).hexdigest()` applied to the
raw bytes; the hash itself is library code, modelled as an arbitrary function
from byte strings to hex strings (determinism — equal bytes give equal
digests — is function application). -/
def get_file_hash (hashFn : List Nat → String) (data : List Nat) : String := hashFn data

/-- `.lower()` on a string: lower-case every character. -/
def lowerStr (s : String) : String := ⟨s.data.map Char.toLower⟩

/-- `file.filename.rsplit('.', 1)[-1].lower()`: the part after the final dot
(the whole name when there is no dot), lower-cased. -/
def extOf (filename : String) : String :=
  lowerStr ⟨(filename.data.reverse.takeWhile (fun c => decide (c ≠ '.'))).reverse⟩

/-- An upload request: either the form has no 'file' part, or it carries a
client-declared file name and the raw bytes. -/
inductive UploadRequest where
  | noFilePart
  | withFile (filename : String) (content : List Nat)
deriving DecidableEq, Repr

/-- What `/upload` returns. -/
inductive UploadResponse where
  | clientError (msg : String)
  | serverError (msg : String)
  | accepted (taskId : String)
deriving DecidableEq, Repr

/-- A background pipeline run started with `threading.Thread(...)`. -/
structure PendingJob where
  inputPath : FPath
  templatePath : FPath
  outputPath : FPath
  taskId : String
deriving DecidableEq, Repr

/-- The `/upload` endpoint of `server.py`.  `uploadUuid` and `freshTaskId`
model the two `uuid.uuid4()` draws.  Returns the HTTP response, the updated
task table and filesystem, and the background job if one was started. -/
def upload (hashFn : List Nat → String) (req : UploadRequest)
    (uploadUuid freshTaskId : String) (tasks : Tasks) (fs : FS) :
    UploadResponse × Tasks × FS × Option PendingJob :=
  match req with
  | .noFilePart => (.clientError "No file part", tasks, fs, none)
  | .withFile filename data =>
    if filename = "" then (.clientError "Empty filename", tasks, fs, none)
    else
      let ext := extOf filename
      if ext ∉ ALLOWED_EXT then (.clientError "Unsupported file type", tasks, fs, none)
      else if data.length > MAX_FILE_SIZE then (.clientError "File too large", tasks, fs, none)
      else
        let fileHash := get_file_hash hashFn data
        let cachedPath : FPath := ⟨OUTPUT_FOLDER, ⟨fileHash, "glb"⟩⟩
        if cachedPath ∈ fs then
          (.accepted freshTaskId, setTask tasks freshTaskId (.success cachedPath), fs, none)
        else
          let inputPath : FPath := ⟨UPLOAD_FOLDER, ⟨uploadUuid, ext⟩⟩
          let fs1 := inputPath :: fs
          if templatePath ∉ fs1 then (.serverError "Template not found", tasks, fs1, none)
          else
            (.accepted freshTaskId, setTask tasks freshTaskId .processing, fs1,
              some ⟨inputPath, templatePath, cachedPath, freshTaskId⟩)

/-- What `/status/<task_id>` returns. -/
inductive StatusResponse where
  | notFound
  | successWith (downloadUrl : String)
  | failureWith (error : String)
  | stillProcessing
deriving DecidableEq, Repr

/-- The `/status/<task_id>` endpoint (read-only). -/
def statusEndpoint (tasks : Tasks) (taskId : String) : StatusResponse :=
  match getTask tasks taskId with
  | none => .notFound
  | some (.success _) => .successWith ("/download/" ++ taskId)
  | some (.failure e) => .failureWith e
  | some .processing => .stillProcessing

/-- The whole server state: the task table, the filesystem, and the
background pipeline threads that have been started but have not finished. -/
structure SysState where
  tasks : Tasks
  fs : FS
  pending : List PendingJob
deriving DecidableEq, Repr

/-- State after an `/upload` call. -/
def uploadStep (hashFn : List Nat → String) (req : UploadRequest)
    (uploadUuid freshTaskId : String) (s : SysState) : SysState :=
  let r := upload hashFn req uploadUuid freshTaskId s.tasks s.fs
  ⟨r.2.1, r.2.2.1, s.pending ++ r.2.2.2.toList⟩

/-- State after a background pipeline thread finishes. -/
def workerStep (procs : PipelineProcs) (job : PendingJob) (s : SysState) : SysState :=
  let r := run_pipeline_task procs job.inputPath job.templatePath job.outputPath
    job.taskId s.tasks s.fs
  ⟨r.1, r.2, s.pending.erase job⟩

/-- One observable operation of the running server: an `/upload` call (the
fresh `uuid.uuid4()` task id models that ids never collide), the completion
of a started pipeline thread, or a read-only `/status` or `/download` query.
-/
inductive SysStep (hashFn : List Nat → String) : SysState → SysState → Prop where
  | upload (s : SysState) (req : UploadRequest) (uploadUuid freshTaskId : String)
      (hfresh : getTask s.tasks freshTaskId = none) :
      SysStep hashFn s (uploadStep hashFn req uploadUuid freshTaskId s)
  | worker (s : SysState) (job : PendingJob) (procs : PipelineProcs)
      (hjob : job ∈ s.pending) :
      SysStep hashFn s (workerStep procs job s)
  | statusQuery (s : SysState) (taskId : String) : SysStep hashFn s s
  | downloadQuery (s : SysState) (taskId : String) : SysStep hashFn s s

/-- Any number of observable operations. -/
def SysSteps (hashFn : List Nat → String) : SysState → SysState → Prop :=
  Relation.ReflTransGen (SysStep hashFn)

/-- The invariant making the worker model sound: every still-running thread's
task is in the PROCESSING state, and no two still-running threads share a
task id. -/
def SysInv (s : SysState) : Prop :=
  (∀ job ∈ s.pending, getTask s.tasks job.taskId = some TaskState.processing) ∧
    (s.pending.map PendingJob.taskId).Nodup

/-
Concrete instances used by the witnesses and counterexamples below.
-/

/-- Template (source) point set: the vertices of a regular octahedron, with
centroid at the origin. -/
def srcEx : List Vec3 :=
  [⟨1,0,0⟩, ⟨-1,0,0⟩, ⟨0,1,0⟩, ⟨0,-1,0⟩, ⟨0,0,1⟩, ⟨0,0,-1⟩]

/-- The similarity transform `T`: identity rotation, scale 2, translation
`(1,0,0)`; as a homogeneous matrix its linear part is `2 I` and its
translation is `(1,0,0)`. -/
def TspecEx : Aff := ⟨Mat3.smul 2 Mat3.id, ⟨1,0,0⟩⟩

/-- Target point set: `T` applied pointwise to the template. -/
def tgtEx : List Vec3 := srcEx.map TspecEx.apply

/-- The SVD data for this input: the cross-covariance is `diag(4,4,4)`, whose
SVD `numpy` returns as `U = I`, `S = diag(4,4,4)`, `Vt = I`; the scale is
`sqrt(4) / sqrt(1) = 2`. -/
def icpDataEx : IcpData := ⟨Mat3.id, Mat3.smul 4 Mat3.id, Mat3.id, 2⟩

/-- The transform `icp_align` actually builds on this input: linear part
`2 I`, translation `(2,0,0)`. -/
def TcodeEx : Aff := ⟨Mat3.smul 2 Mat3.id, ⟨2,0,0⟩⟩

/-- Target point set for the reflection-guard witness: scale the octahedron
by 2 and mirror it in the z = 0 plane, giving cross-covariance
`diag(4,4,-4)`. -/
def tgtReflEx : List Vec3 :=
  [⟨2,0,0⟩, ⟨-2,0,0⟩, ⟨0,2,0⟩, ⟨0,-2,0⟩, ⟨0,0,-2⟩, ⟨0,0,2⟩]

/-- SVD data for the mirrored target: `H = diag(4,4,-4) = U S Vt` with
`U = I`, `S = diag(4,4,4)`, `Vt = diag(1,1,-1)`; candidate rotation
`Vtᵀ Uᵀ = diag(1,1,-1)` has determinant -1, so the guard fires. -/
def icpDataReflEx : IcpData :=
  ⟨Mat3.id, Mat3.smul 4 Mat3.id, ⟨⟨1,0,0⟩,⟨0,1,0⟩,⟨0,0,-1⟩⟩, 2⟩

/-- The transform built for the mirrored target: after the reflection guard
the rotation is the identity, so the result is scaling by 2 about the
origin. -/
def TreflEx : Aff := ⟨Mat3.smul 2 Mat3.id, ⟨0,0,0⟩⟩

/-- A degenerate template: every vertex is the same point. -/
def constTemplateEx : List Vec3 := [⟨1,2,3⟩, ⟨1,2,3⟩]

/-- A non-degenerate target for the degenerate-scale witness. -/
def c4TargetEx : List Vec3 := [⟨0,0,0⟩, ⟨6,0,0⟩]

/-- SVD data for the degenerate template: the cross-covariance is the zero
matrix (`0 = I * 0 * I`), and the guarded scale is 1. -/
def c4DataEx : IcpData := ⟨Mat3.id, Mat3.zero, Mat3.id, 1⟩

/-- The transform built in the degenerate-template run: identity rotation,
scale 1, translation `t_center - s_center = (3,0,0) - (1,2,3)`. -/
def c4AffEx : Aff := ⟨Mat3.id, ⟨2, -2, -3⟩⟩

/-- An uploaded file saved by the server as `uploads/job1.glb`. -/
def inputEx : FPath := ⟨UPLOAD_FOLDER, ⟨"job1", "glb"⟩⟩

/-- A cache-named output path `outputs/cafe.glb` (stem standing for a sha256
hex digest). -/
def outputEx : FPath := ⟨OUTPUT_FOLDER, ⟨"cafe", "glb"⟩⟩

/-- Subprocess outcomes: preprocessing succeeds, rigging exits 1 without
producing output. -/
def procsRigFailEx : PipelineProcs := ⟨.completed 0 true "", .completed 1 false "boom"⟩

/-- Subprocess outcomes: both stages succeed and produce their outputs. -/
def procsOkEx : PipelineProcs := ⟨.completed 0 true "", .completed 0 true ""⟩

/-- Subprocess outcomes: rigging exits 0 but its output file is missing. -/
def procsMissingEx : PipelineProcs := ⟨.completed 0 true "", .completed 0 false ""⟩

/-- Subprocess outcomes: the preprocessing stage exceeds its timeout. -/
def procsPrepTimeoutEx : PipelineProcs := ⟨.timedOut, .completed 0 true ""⟩

/-- Subprocess outcomes: preprocessing succeeds, rigging exceeds its
timeout. -/
def procsRigTimeoutEx : PipelineProcs := ⟨.completed 0 true "", .timedOut⟩

/-- A deterministic stand-in for the sha256 hex digest in concrete runs. -/
def hashFnEx : List Nat → String := fun _ => "cafe"

/-- The initial server state used in concrete traces: no tasks, no running
threads, only the template on disk. -/
def sysInitEx : SysState := ⟨[], [templatePath], []⟩

/-- An initial server state whose cache already holds the artifact for
fingerprint "cafe". -/
def sysInitCacheEx : SysState :=
  ⟨[], [templatePath, ⟨OUTPUT_FOLDER, ⟨"cafe", "glb"⟩⟩], []⟩

/-- The background job started by a first concrete upload (uuid "u1",
task id "t1", fingerprint "cafe"). -/
def jEx : PendingJob :=
  ⟨⟨UPLOAD_FOLDER, ⟨"u1", "glb"⟩⟩, templatePath, ⟨OUTPUT_FOLDER, ⟨"cafe", "glb"⟩⟩, "t1"⟩

/-- The background job started by a concrete upload with uuid "u3" and task
id "t3". -/
def j10Ex : PendingJob :=
  ⟨⟨UPLOAD_FOLDER, ⟨"u3", "obj"⟩⟩, templatePath, ⟨OUTPUT_FOLDER, ⟨"cafe", "glb"⟩⟩, "t3"⟩

/-
Theorems.  General lemmas about the embedded definitions first, then one
theorem per claim (with witnesses where the statements carry hypotheses).
-/

theorem Mat3.det_mul (a b : Mat3) : (a.mul b).det = a.det * b.det := by
  rcases a with ⟨⟨a00,a01,a02⟩,⟨a10,a11,a12⟩,⟨a20,a21,a22⟩⟩
  rcases b with ⟨⟨b00,b01,b02⟩,⟨b10,b11,b12⟩,⟨b20,b21,b22⟩⟩
  simp only [Mat3.mul, Mat3.det, Mat3.transpose, Vec3.dot]
  ring

theorem Mat3.det_transpose (a : Mat3) : a.transpose.det = a.det := by
  rcases a with ⟨⟨a00,a01,a02⟩,⟨a10,a11,a12⟩,⟨a20,a21,a22⟩⟩
  simp only [Mat3.det, Mat3.transpose]
  ring

theorem Mat3.det_negLastRow (a : Mat3) : a.negLastRow.det = -a.det := by
  rcases a with ⟨⟨a00,a01,a02⟩,⟨a10,a11,a12⟩,⟨a20,a21,a22⟩⟩
  simp only [Mat3.det, Mat3.negLastRow, Vec3.smul]
  ring

theorem Mat3.det_id : Mat3.id.det = 1 := by
  simp only [Mat3.det, Mat3.id]
  norm_num

/-- An orthogonal matrix has determinant 1 or -1. -/
theorem Mat3.det_of_orthogonal {a : Mat3} (h : a.IsOrthogonal) :
    a.det = 1 ∨ a.det = -1 := by
  have h1 : a.transpose.det * a.det = 1 := by
    rw [← Mat3.det_mul, h, Mat3.det_id]
  rw [Mat3.det_transpose] at h1
  exact mul_self_eq_one_iff.mp h1

/-- The reflection guard yields determinant exactly 1 whenever the SVD
factors are orthogonal. -/
theorem icpRotation_det_one {U Vt : Mat3} (hU : U.IsOrthogonal) (hVt : Vt.IsOrthogonal) :
    (icpRotation U Vt).det = 1 := by
  have hdet : (Vt.transpose.mul U.transpose).det = Vt.det * U.det := by
    rw [Mat3.det_mul, Mat3.det_transpose, Mat3.det_transpose]
  have hpm : Vt.det * U.det = 1 ∨ Vt.det * U.det = -1 := by
    rcases Mat3.det_of_orthogonal hU with h1 | h1 <;>
      rcases Mat3.det_of_orthogonal hVt with h2 | h2 <;>
        simp [h1, h2]
  unfold icpRotation
  by_cases hneg : (Vt.transpose.mul U.transpose).det < 0
  · simp only [hneg, if_true]
    have hm1 : Vt.det * U.det = -1 := by
      rcases hpm with h | h
      · rw [hdet, h] at hneg; norm_num at hneg
      · exact h
    rw [Mat3.det_mul, Mat3.det_transpose, Mat3.det_transpose, Mat3.det_negLastRow]
    rw [neg_mul, hm1]
    norm_num
  · simp only [hneg, if_false]
    rcases hpm with h | h
    · rw [hdet, h]
    · rw [hdet, h] at hneg ⊢
      norm_num at hneg

theorem vecSum_const (q : Vec3) (ps : List Vec3) (h : ∀ p ∈ ps, p = q) :
    vecSum ps = Vec3.smul (ps.length : ℚ) q := by
  induction ps with
  | nil => simp [vecSum, Vec3.smul, Vec3.zero]
  | cons a t ih =>
      have ha : a = q := h a (List.mem_cons_self a t)
      have ht : ∀ p ∈ t, p = q := fun p hp => h p (List.mem_cons_of_mem a hp)
      rcases q with ⟨qx, qy, qz⟩
      simp only [vecSum, List.foldr_cons, List.length_cons] at *
      rw [ha, ih ht]
      simp only [Vec3.add, Vec3.smul]
      push_cast
      simp only [Vec3.mk.injEq]
      refine ⟨by ring, by ring, by ring⟩

theorem centroid_const (q : Vec3) (ps : List Vec3) (hne : ps ≠ []) (h : ∀ p ∈ ps, p = q) :
    centroid ps = q := by
  have hn0 : ps.length ≠ 0 := fun hl => hne (List.length_eq_zero.mp hl)
  have hn : (ps.length : ℚ) ≠ 0 := Nat.cast_ne_zero.mpr hn0
  rcases q with ⟨qx, qy, qz⟩
  simp only [centroid, vecSum_const _ _ h, Vec3.smul]
  field_simp

/-- Centering a constant point list gives mean squared norm 0 (the degenerate
`s_scale` case). -/
theorem meanSq_centered_const (q : Vec3) (ps : List Vec3) (hne : ps ≠ []) (h : ∀ p ∈ ps, p = q) :
    meanSq (centered ps) = 0 := by
  have hc : centroid ps = q := centroid_const q ps hne h
  have hz : (centered ps).map Vec3.normSq = List.replicate ps.length (0 : ℚ) := by
    rw [← List.map_const ps (0 : ℚ)]
    simp only [centered, List.map_map]
    apply List.map_congr_left
    intro p hp
    simp [Function.comp, h p hp, hc, Vec3.sub, Vec3.normSq, Vec3.dot]
  have hfold : ∀ n : ℕ, ((List.replicate n (0:ℚ)).foldr (· + ·) 0) = 0 := by
    intro n; induction n with
    | zero => simp
    | succ k ih => simp [List.replicate, ih]
  simp only [meanSq, hz, hfold]
  simp

/-- The scale characterised by `ScaleSpec` is forced to 1 when the template
has zero point-variance. -/
theorem scale_one_of_const (q : Vec3) (template target : List Vec3) (s : ℚ)
    (hne : template ≠ []) (h : ∀ p ∈ template, p = q)
    (hs : ScaleSpec (centered template) (centered target) s) : s = 1 := by
  have hm : meanSq (centered template) = 0 := meanSq_centered_const q template hne h
  unfold ScaleSpec at hs
  rw [hm] at hs
  simpa using hs

/-- What lines 131-135 of `rigger.py` actually build: linear part
`scale * R` and translation `scale * (t_center - Rᵀ * s_center)`. -/
theorem buildTransform_apply (R : Mat3) (s : ℚ) (tC sC p : Vec3) :
    (buildTransform R s tC sC).apply p
      = ((Mat3.smul s R).mulVec p).add (Vec3.smul s (tC.sub (R.transpose.mulVec sC))) := rfl

/-- The concrete run of `icp_align` on the octahedron template and its
image under scaling by 2 and translating by (1,0,0). -/
theorem icpRunEx_holds : IcpRun tgtEx srcEx icpDataEx TcodeEx := by
  refine ⟨by simp [tgtEx, srcEx], by simp [srcEx], by simp [tgtEx], ?_, ?_, ?_⟩
  · norm_num [IsSVD, Mat3.IsOrthogonal, Mat3.IsDiagonal, icpDataEx, Mat3.mul, Mat3.transpose,
      Mat3.id, Mat3.smul, Vec3.dot, Vec3.smul, covH, centered, centroid, vecSum, srcEx, tgtEx,
      TspecEx, Aff.apply, Mat3.mulVec, Vec3.add, Vec3.sub, Vec3.zero, Mat3.outer, Mat3.add,
      Mat3.zero]
  · norm_num [ScaleSpec, icpDataEx, meanSq, centered, centroid, vecSum, srcEx, tgtEx, TspecEx,
      Aff.apply, Mat3.mulVec, Mat3.smul, Mat3.id, Vec3.dot, Vec3.add, Vec3.sub, Vec3.zero,
      Vec3.smul, Vec3.normSq]
  · norm_num [TcodeEx, buildTransform, icpRotation, icpDataEx, scaleMat4Mul, rowVecMul,
      Mat3.transpose, Mat3.mul, Mat3.id, Mat3.smul, Mat3.det, Mat3.mulVec, Vec3.dot, Vec3.smul,
      Vec3.sub, Vec3.zero, Vec3.add, centroid, vecSum, srcEx, tgtEx, TspecEx, Aff.apply]

theorem centroid_srcEx : centroid srcEx = ⟨0, 0, 0⟩ := by
  norm_num [centroid, srcEx, vecSum, Vec3.add, Vec3.zero, Vec3.smul]

theorem centroid_tgtEx : centroid tgtEx = ⟨1, 0, 0⟩ := by
  norm_num [centroid, tgtEx, srcEx, TspecEx, Aff.apply, Mat3.mulVec, Mat3.smul, Mat3.id,
    Vec3.dot, Vec3.add, Vec3.zero, Vec3.smul, vecSum]

/-- Claim C1.  The claim states that the 4x4 transform built by `icp_align`
maps every point `p` to `scale * R * (p - source_centroid) + target_centroid`
and in particular maps the source centroid onto the target centroid.  This is
false: on the octahedron template (centroid `(0,0,0)`) and the target
obtained by scaling it by 2 and translating by `(1,0,0)` (centroid
`(1,0,0)`), a run of `icp_align` (rotation `I`, scale `2`) builds the
transform with linear part `2 I` and translation `(2,0,0)`, which maps the
source centroid to `(2,0,0)`, not to the target centroid `(1,0,0)`: the code
sets `transform.translation = t_center - s_center @ transform` (a row-vector
product, i.e. `Rᵀ s_center` rather than `R s_center`) and then left-multiplies
by `Matrix.Scale(scale, 4)`, which scales the already-set translation. -/
theorem c1_transform_misses_target_centroid :
    IcpRun tgtEx srcEx icpDataEx TcodeEx ∧
      TcodeEx.apply (centroid srcEx) = ⟨2, 0, 0⟩ ∧
      centroid tgtEx = ⟨1, 0, 0⟩ ∧
      TcodeEx.apply (centroid srcEx) ≠ centroid tgtEx := by
  refine ⟨icpRunEx_holds, ?_, centroid_tgtEx, ?_⟩
  · rw [centroid_srcEx]
    norm_num [TcodeEx, Aff.apply, Mat3.mulVec, Mat3.smul, Mat3.id, Vec3.dot, Vec3.add, Vec3.smul]
  · rw [centroid_srcEx, centroid_tgtEx]
    norm_num [TcodeEx, Aff.apply, Mat3.mulVec, Mat3.smul, Mat3.id, Vec3.dot, Vec3.add,
      Vec3.smul, Vec3.mk.injEq]

/-- Claim C2.  The claim states that aligning a point set `S` with `T(S)`
recovers the similarity `T` exactly.  This is false: with `S` the octahedron
and `T` the similarity with rotation `I`, scale `2`, translation `(1,0,0)`
(so `T` as a homogeneous matrix is `TspecEx`), the target list is exactly
`T(S)`, yet the run of `icp_align` produces `TcodeEx`, whose translation
`(2,0,0)` differs from `T`'s translation `(1,0,0)`; the two transforms also
act differently (they differ already at the origin).  The rotation and scale
of `T` are recovered, the translation is not. -/
theorem c2_alignment_does_not_recover_transform :
    tgtEx = srcEx.map TspecEx.apply ∧
      IcpRun tgtEx srcEx icpDataEx TcodeEx ∧
      TcodeEx ≠ TspecEx ∧
      TcodeEx.apply ⟨0, 0, 0⟩ ≠ TspecEx.apply ⟨0, 0, 0⟩ := by
  refine ⟨rfl, icpRunEx_holds, ?_, ?_⟩
  · norm_num [TcodeEx, TspecEx, Aff.mk.injEq, Vec3.mk.injEq]
  · norm_num [TcodeEx, TspecEx, Aff.apply, Mat3.mulVec, Mat3.smul, Mat3.id, Vec3.dot,
      Vec3.add, Vec3.smul, Vec3.mk.injEq]

/-- Claim C3: for every run of `icp_align` (every pair of non-empty point
sets and every valid SVD of their cross-covariance), the rotation produced
by the SVD step with the reflection correction has determinant exactly +1,
never -1. -/
theorem c3_rotation_always_proper
    (target template : List Vec3) (d : IcpData) (T : Aff)
    (h : IcpRun target template d T) :
    (icpRotation d.U d.Vt).det = 1 := by
  obtain ⟨-, -, -, hsvd, -, -⟩ := h
  obtain ⟨hU, hVt, -⟩ := hsvd
  exact icpRotation_det_one hU hVt

/-- Witness for C3, on an input that actually fires the reflection guard:
the target is the octahedron scaled by 2 and mirrored in z, the candidate
rotation `Vtᵀ Uᵀ = diag(1,1,-1)` has determinant -1, and the corrected
rotation has determinant 1. -/
theorem c3_rotation_always_proper_witness :
    IcpRun tgtReflEx srcEx icpDataReflEx TreflEx ∧
      (Mat3.det (icpDataReflEx.Vt.transpose.mul icpDataReflEx.U.transpose) = -1) ∧
      (icpRotation icpDataReflEx.U icpDataReflEx.Vt).det = 1 := by
  have hrun : IcpRun tgtReflEx srcEx icpDataReflEx TreflEx := by
    refine ⟨by simp [tgtReflEx], by simp [srcEx], by simp [tgtReflEx, srcEx], ?_, ?_, ?_⟩
    · norm_num [IsSVD, Mat3.IsOrthogonal, Mat3.IsDiagonal, icpDataReflEx, Mat3.mul,
        Mat3.transpose, Mat3.id, Mat3.smul, Vec3.dot, Vec3.smul, covH, centered, centroid,
        vecSum, srcEx, tgtReflEx, Mat3.mulVec, Vec3.add, Vec3.sub, Vec3.zero, Mat3.outer,
        Mat3.add, Mat3.zero]
    · norm_num [ScaleSpec, icpDataReflEx, meanSq, centered, centroid, vecSum, srcEx, tgtReflEx,
        Vec3.dot, Vec3.add, Vec3.sub, Vec3.zero, Vec3.smul, Vec3.normSq]
    · norm_num [TreflEx, buildTransform, icpRotation, icpDataReflEx, scaleMat4Mul, rowVecMul,
        Mat3.transpose, Mat3.mul, Mat3.id, Mat3.smul, Mat3.det, Mat3.mulVec, Mat3.negLastRow,
        Vec3.dot, Vec3.smul, Vec3.sub, Vec3.zero, Vec3.add, centroid, vecSum, srcEx, tgtReflEx]
  refine ⟨hrun, ?_, c3_rotation_always_proper tgtReflEx srcEx icpDataReflEx TreflEx hrun⟩
  norm_num [icpDataReflEx, Mat3.mul, Mat3.transpose, Mat3.id, Mat3.det, Vec3.dot]

/-- Claim C4: when the template (source) point set is non-empty but all its
points are identical (zero point-variance, so the scale denominator
`s_scale` is not positive), the guarded division is skipped and the scale
used by the run is exactly 1. -/
theorem c4_degenerate_scale_is_one
    (target template : List Vec3) (q : Vec3) (d : IcpData) (T : Aff)
    (hconst : ∀ p ∈ template, p = q) (hrun : IcpRun target template d T) :
    d.scale = 1 := by
  obtain ⟨-, hne, -, -, hs, -⟩ := hrun
  exact scale_one_of_const q template target d.scale hne hconst hs

/-- Witness for C4: a run on a template whose two points coincide. -/
theorem c4_degenerate_scale_is_one_witness :
    (∀ p ∈ constTemplateEx, p = (⟨1, 2, 3⟩ : Vec3)) ∧
      IcpRun c4TargetEx constTemplateEx c4DataEx c4AffEx ∧
      c4DataEx.scale = 1 := by
  have hconst : ∀ p ∈ constTemplateEx, p = (⟨1, 2, 3⟩ : Vec3) := by
    intro p hp
    simp only [constTemplateEx, List.mem_cons, List.not_mem_nil, or_false] at hp
    rcases hp with h | h <;> exact h
  have hrun : IcpRun c4TargetEx constTemplateEx c4DataEx c4AffEx := by
    refine ⟨by simp [c4TargetEx], by simp [constTemplateEx],
      by simp [c4TargetEx, constTemplateEx], ?_, ?_, ?_⟩
    · norm_num [IsSVD, Mat3.IsOrthogonal, Mat3.IsDiagonal, c4DataEx, Mat3.mul, Mat3.transpose,
        Mat3.id, Mat3.smul, Vec3.dot, Vec3.smul, covH, centered, centroid, vecSum,
        constTemplateEx, c4TargetEx, Mat3.mulVec, Vec3.add, Vec3.sub, Vec3.zero, Mat3.outer,
        Mat3.add, Mat3.zero]
    · norm_num [ScaleSpec, c4DataEx, meanSq, centered, centroid, vecSum, constTemplateEx,
        c4TargetEx, Vec3.dot, Vec3.add, Vec3.sub, Vec3.zero, Vec3.smul, Vec3.normSq]
    · norm_num [c4AffEx, buildTransform, icpRotation, c4DataEx, scaleMat4Mul, rowVecMul,
        Mat3.transpose, Mat3.mul, Mat3.id, Mat3.smul, Mat3.det, Mat3.mulVec, Vec3.dot,
        Vec3.smul, Vec3.sub, Vec3.zero, Vec3.add, centroid, vecSum, constTemplateEx, c4TargetEx]
  exact ⟨hconst, hrun,
    c4_degenerate_scale_is_one c4TargetEx constTemplateEx ⟨1, 2, 3⟩ c4DataEx c4AffEx hconst hrun⟩

theorem append_prepared_ne_self (s : String) : s ++ "_prepared" ≠ s := by
  intro h
  have hl := congrArg String.length h
  rw [String.length_append] at hl
  have h9 : ("_prepared" : String).length = 9 := rfl
  rw [h9] at hl
  omega

theorem append_prepared_ne_rigged (s : String) : s ++ "_prepared" ≠ "rigged_temp" := by
  intro h
  have hd : (s ++ "_prepared").data = ("rigged_temp" : String).data := congrArg String.data h
  rw [String.data_append] at hd
  have hr := congrArg List.reverse hd
  rw [List.reverse_append] at hr
  have e1 : ("_prepared" : String).data.reverse
      = ['d','e','r','a','p','e','r','p','_'] := rfl
  have e2 : ("rigged_temp" : String).data.reverse
      = ['p','m','e','t','_','d','e','g','g','i','r'] := rfl
  rw [e1, e2] at hr
  simp only [List.cons_append, List.cons.injEq] at hr
  exact absurd hr.1 (by decide)

theorem append_prepared_ne_final (s : String) : s ++ "_prepared" ≠ "final_rigged" := by
  intro h
  have hd : (s ++ "_prepared").data = ("final_rigged" : String).data := congrArg String.data h
  rw [String.data_append] at hd
  have hr := congrArg List.reverse hd
  rw [List.reverse_append] at hr
  have e1 : ("_prepared" : String).data.reverse
      = ['d','e','r','a','p','e','r','p','_'] := rfl
  have e2 : ("final_rigged" : String).data.reverse
      = ['d','e','g','g','i','r','_','l','a','n','i','f'] := rfl
  rw [e1, e2] at hr
  simp only [List.cons_append, List.cons.injEq] at hr
  exact absurd hr.2.2.1 (by decide)

theorem preparedPath_ne_script (input : FPath) (outdir : List String) :
    preparedPathFor input outdir ≠ scriptPath := by
  intro h
  have he := congrArg (fun p => p.name.ext) h
  simp only [preparedPathFor, scriptPath] at he
  exact absurd he (by decide)

theorem preparedPath_ne_input (input : FPath) (outdir : List String) :
    preparedPathFor input outdir ≠ input := by
  simp only [preparedPathFor, ne_eq]
  intro h
  have := congrArg (fun p => p.name.stem) h
  simp only at this
  exact append_prepared_ne_self input.name.stem this

theorem riggedTemp_ne_prepared (input : FPath) (outdir outdir' : List String) :
    riggedTempPath outdir ≠ preparedPathFor input outdir' := by
  intro h
  have he := congrArg (fun p => p.name.stem) h
  simp only [riggedTempPath, preparedPathFor] at he
  exact absurd he.symm (append_prepared_ne_rigged input.name.stem)

theorem finalRigged_ne_prepared (input : FPath) (outdir outdir' : List String) :
    finalRiggedPath outdir ≠ preparedPathFor input outdir' := by
  intro h
  have he := congrArg (fun p => p.name.stem) h
  simp only [finalRiggedPath, preparedPathFor] at he
  exact absurd he.symm (append_prepared_ne_final input.name.stem)

theorem finalRigged_ne_rigged (outdir outdir' : List String) :
    finalRiggedPath outdir ≠ riggedTempPath outdir' := by
  intro h
  have he := congrArg (fun p => p.name.stem) h
  simp only [finalRiggedPath, riggedTempPath] at he
  exact absurd he (by decide)

theorem mem_fsRemove {p q : FPath} {fs : FS} : p ∈ fsRemove fs q ↔ p ∈ fs ∧ p ≠ q := by
  simp [fsRemove, List.mem_filter]

theorem fsRemove_cons_of_ne {p q : FPath} {fs : FS} (h : p ≠ q) :
    fsRemove (p :: fs) q = p :: fsRemove fs q := by
  simp [fsRemove, List.filter_cons, h]

theorem fsRemove_cons_self {q : FPath} {fs : FS} :
    fsRemove (q :: fs) q = fsRemove fs q := by
  simp [fsRemove, List.filter_cons]

theorem getTask_setTask_self (tasks : Tasks) (id : String) (st : TaskState) :
    getTask (setTask tasks id st) id = some st := by
  simp [getTask, setTask, List.find?_cons]

theorem find?_filter_ne (tasks : Tasks) (id id' : String) (h : id' ≠ id) :
    (tasks.filter (fun p => decide (p.1 ≠ id))).find? (fun p => decide (p.1 = id'))
      = tasks.find? (fun p => decide (p.1 = id')) := by
  rw [List.find?_filter]
  congr 1
  funext a
  by_cases hb : a.1 = id
  · have hne : ¬ a.1 = id' := fun c => h (c.symm.trans hb)
    have hid : ¬ id = id' := fun c => h c.symm
    simp [hb, hne, hid]
  · simp [hb]

theorem getTask_setTask_ne (tasks : Tasks) (id id' : String) (st : TaskState) (h : id' ≠ id) :
    getTask (setTask tasks id st) id' = getTask tasks id' := by
  simp only [getTask, setTask, List.find?_cons]
  have : (decide (id = id')) = false := by
    simp only [decide_eq_false_iff_not]
    exact fun c => h c.symm
  rw [this]
  simp only [cond_false]
  rw [find?_filter_ne tasks id id' h]

/-- The preprocessing stage on a successful engine run: the temporary script
is written and removed again, and the prepared GLB is created and returned. -/
theorem prepare_ok (serr : String) (input : FPath) (outdir : List String) (fs : FS) :
    prepare_for_rigging (ProcResult.completed 0 true serr) input outdir fs
      = (preparedPathFor input outdir :: fsRemove fs scriptPath,
          Except.ok (preparedPathFor input outdir)) := by
  have hps : preparedPathFor input outdir ≠ scriptPath := preparedPath_ne_script input outdir
  simp only [prepare_for_rigging, if_true, if_pos, List.mem_cons]
  norm_num
  rw [fsRemove_cons_of_ne hps, fsRemove_cons_self]

/-- On a failing rigging stage the pipeline raises before reaching its
cleanup lines, leaving the prepared file in place. -/
theorem run_pipeline_rig_fail
    (procs : PipelineProcs) (inputPath tmplPath : FPath) (outdir : List String)
    (fs : FS) (serr rerr : String) (rc : Int) (rout : Bool)
    (hprep : procs.prepare = ProcResult.completed 0 true serr)
    (hrc : rc ≠ 0)
    (hrig : procs.rig = ProcResult.completed rc rout rerr) :
    run_pipeline procs inputPath outdir tmplPath fs
      = ((if rout then
            riggedTempPath outdir
              :: (preparedPathFor inputPath outdir :: fsRemove fs scriptPath)
          else preparedPathFor inputPath outdir :: fsRemove fs scriptPath),
         Except.error (PipeError.riggingFailed rerr)) := by
  unfold run_pipeline
  rw [hprep, prepare_ok, hrig]
  simp [hrc]

/-- Claim C5 (amended): when the rigging stage fails after a successful
preprocessing stage, the job is marked FAILURE with the cause string, but the
prepared GLB intermediate created by the run is NOT removed — it is still on
disk after the task finishes (the cleanup in `run_pipeline` runs only on the
success path, and the `finally` block only removes the uploaded input). -/
theorem c5_failure_leaves_prepared_file
    (procs : PipelineProcs) (inputPath tmplPath outputPath : FPath) (tid : String)
    (tasks : Tasks) (fs : FS) (serr rerr : String) (rc : Int) (rout : Bool)
    (hprep : procs.prepare = ProcResult.completed 0 true serr)
    (hrc : rc ≠ 0)
    (hrig : procs.rig = ProcResult.completed rc rout rerr) :
    getTask (run_pipeline_task procs inputPath tmplPath outputPath tid tasks fs).1 tid
        = some (TaskState.failure ("Rigging failed: " ++ rerr)) ∧
      preparedPathFor inputPath outputPath.dir
        ∈ (run_pipeline_task procs inputPath tmplPath outputPath tid tasks fs).2 := by
  unfold run_pipeline_task
  rw [run_pipeline_rig_fail procs inputPath tmplPath outputPath.dir fs serr rerr rc rout
    hprep hrc hrig]
  constructor
  · exact getTask_setTask_self tasks tid _
  · rw [mem_fsRemove]
    refine ⟨?_, preparedPath_ne_input inputPath outputPath.dir⟩
    by_cases hro : rout = true
    · simp [hro]
    · simp [hro]

/-- Claim C5 (counterexample to the claim as stated): a concrete run in which
the rigging stage fails; the job is marked Failed, yet the prepared GLB
`outputs/job1_prepared.glb` created by this run is still on disk afterwards,
contradicting "every intermediate artifact created by that run is removed
before the job is marked Failed". -/
theorem c5_counterexample :
    getTask (run_pipeline_task procsRigFailEx inputEx templatePath outputEx "task1"
        [("task1", TaskState.processing)] [templatePath, inputEx]).1 "task1"
      = some (TaskState.failure "Rigging failed: boom") ∧
      (FPath.mk OUTPUT_FOLDER ⟨"job1_prepared", "glb"⟩)
        ∈ (run_pipeline_task procsRigFailEx inputEx templatePath outputEx "task1"
          [("task1", TaskState.processing)] [templatePath, inputEx]).2 := by decide

/-- Witness for the amended C5 statement at a concrete input. -/
theorem c5_failure_leaves_prepared_file_witness :
    procsRigFailEx.prepare = ProcResult.completed 0 true "" ∧
      procsRigFailEx.rig = ProcResult.completed 1 false "boom" ∧
      (getTask (run_pipeline_task procsRigFailEx inputEx templatePath outputEx "t9"
          [] [templatePath]).1 "t9"
        = some (TaskState.failure ("Rigging failed: " ++ "boom")) ∧
      preparedPathFor inputEx outputEx.dir
        ∈ (run_pipeline_task procsRigFailEx inputEx templatePath outputEx "t9"
          [] [templatePath]).2) :=
  ⟨rfl, rfl,
    c5_failure_leaves_prepared_file procsRigFailEx inputEx templatePath outputEx "t9"
      [] [templatePath] "" "boom" 1 false rfl (by decide) rfl⟩

/-- Claim C8: if the rigging subprocess exits with status 0 but the declared
output file `rigged_temp.glb` does not exist afterwards, `run_pipeline`
raises ("Rigging succeeded but output file missing") and the worker marks the
job FAILURE with that cause — a zero exit code with a missing output file is
never accepted as success. -/
theorem c8_zero_exit_missing_output_fails
    (procs : PipelineProcs) (inputPath tmplPath outputPath : FPath) (tid : String)
    (tasks : Tasks) (fs : FS) (serr rerr : String)
    (hprep : procs.prepare = ProcResult.completed 0 true serr)
    (hrig : procs.rig = ProcResult.completed 0 false rerr)
    (hnot : riggedTempPath outputPath.dir ∉ fs) :
    getTask (run_pipeline_task procs inputPath tmplPath outputPath tid tasks fs).1 tid
      = some (TaskState.failure "Rigging succeeded but output file missing") := by
  have hmem : riggedTempPath outputPath.dir
      ∉ (preparedPathFor inputPath outputPath.dir :: fsRemove fs scriptPath) := by
    intro hm
    rcases List.mem_cons.mp hm with hh | ht
    · exact riggedTemp_ne_prepared inputPath outputPath.dir outputPath.dir hh
    · exact hnot (mem_fsRemove.mp ht).1
  have hrun : run_pipeline procs inputPath outputPath.dir tmplPath fs
      = (preparedPathFor inputPath outputPath.dir :: fsRemove fs scriptPath,
         Except.error PipeError.riggingOutputMissing) := by
    unfold run_pipeline
    rw [hprep, prepare_ok, hrig]
    simp [hmem]
  unfold run_pipeline_task
  rw [hrun]
  exact getTask_setTask_self tasks tid _

/-- Witness for C8. -/
theorem c8_zero_exit_missing_output_fails_witness :
    procsMissingEx.prepare = ProcResult.completed 0 true "" ∧
      procsMissingEx.rig = ProcResult.completed 0 false "" ∧
      riggedTempPath outputEx.dir ∉ ([templatePath] : FS) ∧
      getTask (run_pipeline_task procsMissingEx inputEx templatePath outputEx "t8"
          [] [templatePath]).1 "t8"
        = some (TaskState.failure "Rigging succeeded but output file missing") :=
  ⟨rfl, rfl, by decide,
    c8_zero_exit_missing_output_fails procsMissingEx inputEx templatePath outputEx "t8"
      [] [templatePath] "" "" rfl rfl (by decide)⟩

/-- The preprocessing stage on a timed-out engine run: `subprocess.run`
raises `TimeoutExpired`, the `finally` block removes the script, and the
exception propagates. -/
theorem prepare_timeout (input : FPath) (outdir : List String) (fs : FS) :
    prepare_for_rigging ProcResult.timedOut input outdir fs
      = (fsRemove fs scriptPath, Except.error (PipeError.timeout prepareTimeoutSeconds)) := by
  simp [prepare_for_rigging, fsRemove_cons_self]

/-- Claim C9: a Prepare or DelegateRig subprocess that runs past its
configured ceiling (300 seconds for prepare, 600 for rigging) makes the job
reach the terminal FAILURE state carrying the timeout as its cause; the job
is never left in the PROCESSING state. -/
theorem c9_timeout_reaches_failure
    (procs : PipelineProcs) (inputPath tmplPath outputPath : FPath) (tid : String)
    (tasks : Tasks) (fs : FS)
    (h : procs.prepare = ProcResult.timedOut ∨
        (procs.rig = ProcResult.timedOut ∧
          ∃ serr, procs.prepare = ProcResult.completed 0 true serr)) :
    (getTask (run_pipeline_task procs inputPath tmplPath outputPath tid tasks fs).1 tid
        = some (TaskState.failure ((PipeError.timeout prepareTimeoutSeconds).toMessage)) ∨
      getTask (run_pipeline_task procs inputPath tmplPath outputPath tid tasks fs).1 tid
        = some (TaskState.failure ((PipeError.timeout rigTimeoutSeconds).toMessage))) ∧
      getTask (run_pipeline_task procs inputPath tmplPath outputPath tid tasks fs).1 tid
        ≠ some TaskState.processing := by
  rcases h with hp | ⟨hr, serr, hp⟩
  · have hrun : run_pipeline procs inputPath outputPath.dir tmplPath fs
        = (fsRemove fs scriptPath, Except.error (PipeError.timeout prepareTimeoutSeconds)) := by
      unfold run_pipeline
      rw [hp, prepare_timeout]
    have hg : getTask (run_pipeline_task procs inputPath tmplPath outputPath tid tasks fs).1 tid
        = some (TaskState.failure ((PipeError.timeout prepareTimeoutSeconds).toMessage)) := by
      unfold run_pipeline_task
      rw [hrun]
      exact getTask_setTask_self tasks tid _
    refine ⟨Or.inl hg, ?_⟩
    rw [hg]
    simp
  · have hrun : run_pipeline procs inputPath outputPath.dir tmplPath fs
        = (preparedPathFor inputPath outputPath.dir :: fsRemove fs scriptPath,
           Except.error (PipeError.timeout rigTimeoutSeconds)) := by
      unfold run_pipeline
      rw [hp, prepare_ok, hr]
    have hg : getTask (run_pipeline_task procs inputPath tmplPath outputPath tid tasks fs).1 tid
        = some (TaskState.failure ((PipeError.timeout rigTimeoutSeconds).toMessage)) := by
      unfold run_pipeline_task
      rw [hrun]
      exact getTask_setTask_self tasks tid _
    refine ⟨Or.inr hg, ?_⟩
    rw [hg]
    simp

/-- Witness for C9, on a run whose preprocessing stage times out. -/
theorem c9_timeout_reaches_failure_witness :
    (procsPrepTimeoutEx.prepare = ProcResult.timedOut ∨
        (procsPrepTimeoutEx.rig = ProcResult.timedOut ∧
          ∃ serr, procsPrepTimeoutEx.prepare = ProcResult.completed 0 true serr)) ∧
      ((getTask (run_pipeline_task procsPrepTimeoutEx inputEx templatePath outputEx "t7"
          [] [templatePath]).1 "t7"
        = some (TaskState.failure ((PipeError.timeout prepareTimeoutSeconds).toMessage)) ∨
       getTask (run_pipeline_task procsPrepTimeoutEx inputEx templatePath outputEx "t7"
          [] [templatePath]).1 "t7"
        = some (TaskState.failure ((PipeError.timeout rigTimeoutSeconds).toMessage))) ∧
      getTask (run_pipeline_task procsPrepTimeoutEx inputEx templatePath outputEx "t7"
          [] [templatePath]).1 "t7" ≠ some TaskState.processing) :=
  ⟨Or.inl rfl,
    c9_timeout_reaches_failure procsPrepTimeoutEx inputEx templatePath outputEx "t7"
      [] [templatePath] (Or.inl rfl)⟩

/-- Inversion of `/upload` when a background job is started: the request had
a file with an allowed extension, the fingerprint was not in the cache, the
task was created PROCESSING, the uploaded bytes were saved under a fresh
uuid name, and the job targets the sha256-named cache path. -/
theorem upload_spawn_inversion
    (hashFn : List Nat → String) (req : UploadRequest) (uu tid : String)
    (tasks : Tasks) (fs : FS) (r : UploadResponse) (ts : Tasks) (fs2 : FS) (j : PendingJob)
    (h : upload hashFn req uu tid tasks fs = (r, ts, fs2, some j)) :
    ∃ filename data,
      req = UploadRequest.withFile filename data ∧
      r = UploadResponse.accepted tid ∧
      ts = setTask tasks tid TaskState.processing ∧
      j = ⟨⟨UPLOAD_FOLDER, ⟨uu, extOf filename⟩⟩, templatePath,
            ⟨OUTPUT_FOLDER, ⟨hashFn data, "glb"⟩⟩, tid⟩ ∧
      fs2 = ⟨UPLOAD_FOLDER, ⟨uu, extOf filename⟩⟩ :: fs ∧
      (FPath.mk OUTPUT_FOLDER ⟨hashFn data, "glb"⟩) ∉ fs ∧
      templatePath ∈ fs2 := by
  cases req with
  | noFilePart => simp [upload] at h
  | withFile filename data =>
    refine ⟨filename, data, rfl, ?_⟩
    simp only [upload, get_file_hash] at h
    split at h
    · simp at h
    split at h
    · simp at h
    split at h
    · simp at h
    split at h
    · simp at h
    split at h
    · simp at h
    next hcache htemp =>
      have hr := congrArg (fun q : UploadResponse × Tasks × FS × Option PendingJob => q.1) h
      have hts := congrArg (fun q : UploadResponse × Tasks × FS × Option PendingJob => q.2.1) h
      have hfs := congrArg (fun q : UploadResponse × Tasks × FS × Option PendingJob => q.2.2.1) h
      have hj := congrArg (fun q : UploadResponse × Tasks × FS × Option PendingJob => q.2.2.2) h
      simp only [Option.some.injEq] at hr hts hfs hj
      refine ⟨hr.symm, hts.symm, hj.symm, hfs.symm, hcache, ?_⟩
      rw [← hfs]
      exact not_not.mp htemp

/-- Claim C10: (1) whenever `run_pipeline` succeeds it returns the fixed path
`<output_dir>/final_rigged.glb`, whatever the input file and its content;
(2) the rigged intermediate is written to the fixed path
`<output_dir>/rigged_temp.glb` (observable on disk when the rigging engine
writes its output and then fails); (3) every job spawned by the server uses
`output_dir = OUTPUT_FOLDER` (the directory of the cache path), so (4) any
two spawned jobs — including two running concurrently — read and write the
very same `rigged_temp.glb` and `final_rigged.glb` files. -/
theorem c10_fixed_shared_intermediate_paths :
    (∀ (procs : PipelineProcs) (input : FPath) (outdir : List String) (tmpl : FPath)
        (fs fs2 : FS) (p : FPath),
        run_pipeline procs input outdir tmpl fs = (fs2, Except.ok p) →
          p = finalRiggedPath outdir) ∧
    (∀ (input tmpl : FPath) (outdir : List String) (fs : FS) (serr rerr : String),
        riggedTempPath outdir ∈
          (run_pipeline ⟨ProcResult.completed 0 true serr, ProcResult.completed 1 true rerr⟩
            input outdir tmpl fs).1) ∧
    (∀ (hashFn : List Nat → String) (req : UploadRequest) (uu tid : String) (tasks : Tasks)
        (fs : FS) (r : UploadResponse) (ts : Tasks) (fs2 : FS) (j : PendingJob),
        upload hashFn req uu tid tasks fs = (r, ts, fs2, some j) →
          j.outputPath.dir = OUTPUT_FOLDER) ∧
    (∀ (hashFn hashFn' : List Nat → String) (req req' : UploadRequest)
        (uu tid uu' tid' : String) (tasks tasks' : Tasks) (fs fs' : FS)
        (r r' : UploadResponse) (ts ts' : Tasks) (fs2 fs2' : FS) (j j' : PendingJob),
        upload hashFn req uu tid tasks fs = (r, ts, fs2, some j) →
        upload hashFn' req' uu' tid' tasks' fs' = (r', ts', fs2', some j') →
          riggedTempPath j.outputPath.dir = riggedTempPath j'.outputPath.dir ∧
          finalRiggedPath j.outputPath.dir = finalRiggedPath j'.outputPath.dir) := by
  have hdir : ∀ (hashFn : List Nat → String) (req : UploadRequest) (uu tid : String)
      (tasks : Tasks) (fs : FS) (r : UploadResponse) (ts : Tasks) (fs2 : FS) (j : PendingJob),
      upload hashFn req uu tid tasks fs = (r, ts, fs2, some j) →
        j.outputPath.dir = OUTPUT_FOLDER := by
    intro hashFn req uu tid tasks fs r ts fs2 j h
    obtain ⟨fn, d, -, -, -, hj, -, -, -⟩ :=
      upload_spawn_inversion hashFn req uu tid tasks fs r ts fs2 j h
    rw [hj]
  refine ⟨?_, ?_, hdir, ?_⟩
  · intro procs input outdir tmpl fs fs2 p h
    unfold run_pipeline at h
    repeat' split at h
    all_goals (
      have h2 := congrArg (fun q : FS × Except PipeError FPath => q.2) h
      simp [optimize_for_web] at h2)
    all_goals first
      | exact h2.symm
      | exact h2
      | (split at h2 <;> simp at h2 <;> first | exact h2.symm | exact h2)
  · intro input tmpl outdir fs serr rerr
    rw [run_pipeline_rig_fail ⟨ProcResult.completed 0 true serr, ProcResult.completed 1 true rerr⟩
      input tmpl outdir fs serr rerr 1 true rfl (by decide) rfl]
    simp
  · intro hashFn hashFn' req req' uu tid uu' tid' tasks tasks' fs fs' r r' ts ts' fs2 fs2' j j' h h'
    rw [hdir hashFn req uu tid tasks fs r ts fs2 j h,
      hdir hashFn' req' uu' tid' tasks' fs' r' ts' fs2' j' h']
    exact ⟨rfl, rfl⟩

/-- Witness for C10: a concrete successful pipeline run returning
`final_rigged.glb`, a concrete failing run leaving `rigged_temp.glb` on disk,
and a concrete spawned job writing into `OUTPUT_FOLDER`. -/
theorem c10_fixed_shared_intermediate_paths_witness :
    (run_pipeline procsOkEx inputEx OUTPUT_FOLDER templatePath [templatePath]
        = ((run_pipeline procsOkEx inputEx OUTPUT_FOLDER templatePath [templatePath]).1,
            Except.ok (finalRiggedPath OUTPUT_FOLDER))) ∧
      riggedTempPath OUTPUT_FOLDER ∈
        (run_pipeline ⟨ProcResult.completed 0 true "", ProcResult.completed 1 true "err"⟩
          inputEx OUTPUT_FOLDER templatePath [templatePath]).1 ∧
      (upload hashFnEx (UploadRequest.withFile "mesh.obj" [1, 2]) "u3" "t3" [] [templatePath]
          = (UploadResponse.accepted "t3", setTask [] "t3" TaskState.processing,
             [⟨UPLOAD_FOLDER, ⟨"u3", "obj"⟩⟩, templatePath], some j10Ex)) ∧
      j10Ex.outputPath.dir = OUTPUT_FOLDER := by
  have hup : upload hashFnEx (UploadRequest.withFile "mesh.obj" [1, 2]) "u3" "t3" [] [templatePath]
      = (UploadResponse.accepted "t3", setTask [] "t3" TaskState.processing,
         [⟨UPLOAD_FOLDER, ⟨"u3", "obj"⟩⟩, templatePath], some j10Ex) := by decide
  have hpipe : run_pipeline procsOkEx inputEx OUTPUT_FOLDER templatePath [templatePath]
      = ((run_pipeline procsOkEx inputEx OUTPUT_FOLDER templatePath [templatePath]).1,
         Except.ok (finalRiggedPath OUTPUT_FOLDER)) := by
    have h2 : (run_pipeline procsOkEx inputEx OUTPUT_FOLDER templatePath [templatePath]).2
        = Except.ok (finalRiggedPath OUTPUT_FOLDER) := by decide
    rw [← h2]
  refine ⟨hpipe,
    c10_fixed_shared_intermediate_paths.2.1 inputEx templatePath OUTPUT_FOLDER [templatePath]
      "" "err",
    hup,
    c10_fixed_shared_intermediate_paths.2.2.1 hashFnEx (UploadRequest.withFile "mesh.obj" [1, 2])
      "u3" "t3" [] [templatePath] (UploadResponse.accepted "t3")
      (setTask [] "t3" TaskState.processing)
      [⟨UPLOAD_FOLDER, ⟨"u3", "obj"⟩⟩, templatePath] j10Ex hup⟩

/-- `/upload` on a cache hit: the task is created directly in the SUCCESS
state pointing at the cached file, nothing is written, and no pipeline thread
is started. -/
theorem upload_cache_hit (hashFn : List Nat → String) (filename : String) (data : List Nat)
    (uu tid : String) (tasks : Tasks) (fs : FS)
    (hname : filename ≠ "") (hext : extOf filename ∈ ALLOWED_EXT)
    (hsize : ¬ data.length > MAX_FILE_SIZE)
    (hmem : (FPath.mk OUTPUT_FOLDER ⟨hashFn data, "glb"⟩) ∈ fs) :
    upload hashFn (UploadRequest.withFile filename data) uu tid tasks fs
      = (UploadResponse.accepted tid,
         setTask tasks tid (TaskState.success ⟨OUTPUT_FOLDER, ⟨hashFn data, "glb"⟩⟩),
         fs, none) := by
  simp only [upload, get_file_hash]
  rw [if_neg hname, if_neg (not_not_intro hext), if_neg hsize, if_pos hmem]

/-- A fully successful worker run: the task is recorded SUCCESS with the
declared output path, and that file exists afterwards. -/
theorem run_pipeline_task_success
    (procs : PipelineProcs) (inputPath tmplPath outputPath : FPath) (tid : String)
    (tasks : Tasks) (fs : FS) (serr rerr : String)
    (hprep : procs.prepare = ProcResult.completed 0 true serr)
    (hrig : procs.rig = ProcResult.completed 0 true rerr)
    (hio : inputPath ≠ outputPath) :
    (run_pipeline_task procs inputPath tmplPath outputPath tid tasks fs).1
        = setTask tasks tid (TaskState.success outputPath) ∧
      outputPath ∈ (run_pipeline_task procs inputPath tmplPath outputPath tid tasks fs).2 := by
  have hrun : run_pipeline procs inputPath outputPath.dir tmplPath fs
      = (fsRemove
          (fsRemove
            (finalRiggedPath outputPath.dir :: riggedTempPath outputPath.dir ::
              preparedPathFor inputPath outputPath.dir :: fsRemove fs scriptPath)
            (preparedPathFor inputPath outputPath.dir))
          (riggedTempPath outputPath.dir),
         Except.ok (finalRiggedPath outputPath.dir)) := by
    unfold run_pipeline
    rw [hprep, prepare_ok, hrig]
    simp [optimize_for_web, List.mem_cons]
  unfold run_pipeline_task
  rw [hrun]
  refine ⟨rfl, ?_⟩
  rw [mem_fsRemove]
  refine ⟨?_, fun c => hio c.symm⟩
  by_cases hfo : finalRiggedPath outputPath.dir = outputPath
  · rw [if_neg (not_not_intro hfo)]
    rw [← hfo]
    rw [mem_fsRemove, mem_fsRemove]
    exact ⟨⟨List.mem_cons_self _ _,
      finalRigged_ne_prepared inputPath outputPath.dir outputPath.dir⟩,
      finalRigged_ne_rigged outputPath.dir outputPath.dir⟩
  · rw [if_pos hfo]
    exact List.mem_cons_self _ _

/-- Claim C6: two submissions with byte-identical payloads, where the first
completes successfully before the second is submitted, resolve to the same
artifact locator (the sha256-named cache file `outputs/<hash>.glb`): the
first task is recorded SUCCESS with that path, and the second submission
finds the cache file, creates its task directly in the SUCCESS state
pointing at the same path, and starts no pipeline thread. -/
theorem c6_cache_idempotent
    (hashFn : List Nat → String) (procs : PipelineProcs)
    (name1 name2 uu1 uu2 tid1 tid2 : String) (data : List Nat) (serr rerr : String)
    (r1 : UploadResponse) (tasks1 : Tasks) (fs1 : FS) (j : PendingJob)
    (hname2 : name2 ≠ "") (hext2 : extOf name2 ∈ ALLOWED_EXT)
    (hsize2 : ¬ data.length > MAX_FILE_SIZE)
    (hprep : procs.prepare = ProcResult.completed 0 true serr)
    (hrig : procs.rig = ProcResult.completed 0 true rerr)
    (h1 : upload hashFn (UploadRequest.withFile name1 data) uu1 tid1 [] [templatePath]
        = (r1, tasks1, fs1, some j)) :
    upload hashFn (UploadRequest.withFile name2 data) uu2 tid2
        (run_pipeline_task procs j.inputPath j.templatePath j.outputPath j.taskId tasks1 fs1).1
        (run_pipeline_task procs j.inputPath j.templatePath j.outputPath j.taskId tasks1 fs1).2
      = (UploadResponse.accepted tid2,
         setTask
           (run_pipeline_task procs j.inputPath j.templatePath j.outputPath j.taskId tasks1 fs1).1
           tid2 (TaskState.success ⟨OUTPUT_FOLDER, ⟨hashFn data, "glb"⟩⟩),
         (run_pipeline_task procs j.inputPath j.templatePath j.outputPath j.taskId tasks1 fs1).2,
         none) ∧
      getTask
          (run_pipeline_task procs j.inputPath j.templatePath j.outputPath j.taskId tasks1 fs1).1
          j.taskId
        = some (TaskState.success ⟨OUTPUT_FOLDER, ⟨hashFn data, "glb"⟩⟩) := by
  obtain ⟨fn, d, hreq, -, -, hj, -, -, -⟩ :=
    upload_spawn_inversion hashFn (UploadRequest.withFile name1 data) uu1 tid1 [] [templatePath]
      r1 tasks1 fs1 j h1
  injection hreq with hfn hd
  subst hfn
  subst hd
  have hio : j.inputPath ≠ j.outputPath := by
    rw [hj]
    intro c
    have hc := congrArg FPath.dir c
    simp only [UPLOAD_FOLDER, OUTPUT_FOLDER, BASE_DIR] at hc
    exact absurd hc (by decide)
  have hOut : j.outputPath = ⟨OUTPUT_FOLDER, ⟨hashFn data, "glb"⟩⟩ := by rw [hj]
  have hs := run_pipeline_task_success procs j.inputPath j.templatePath j.outputPath j.taskId
    tasks1 fs1 serr rerr hprep hrig hio
  have hm : (FPath.mk OUTPUT_FOLDER ⟨hashFn data, "glb"⟩)
      ∈ (run_pipeline_task procs j.inputPath j.templatePath j.outputPath j.taskId tasks1 fs1).2 := by
    rw [← hOut]
    exact hs.2
  constructor
  · exact upload_cache_hit hashFn name2 data uu2 tid2 _ _ hname2 hext2 hsize2 hm
  · rw [hs.1, getTask_setTask_self, hOut]

/-- Witness for C6: a concrete pair of submissions of the same bytes. -/
theorem c6_cache_idempotent_witness :
    (upload hashFnEx (UploadRequest.withFile "model.glb" [7]) "u1" "t1" [] [templatePath]
        = (UploadResponse.accepted "t1", setTask [] "t1" TaskState.processing,
           [⟨UPLOAD_FOLDER, ⟨"u1", "glb"⟩⟩, templatePath], some jEx)) ∧
      (upload hashFnEx (UploadRequest.withFile "copy.glb" [7]) "u2" "t2"
          (run_pipeline_task procsOkEx jEx.inputPath jEx.templatePath jEx.outputPath jEx.taskId
            (setTask [] "t1" TaskState.processing)
            [⟨UPLOAD_FOLDER, ⟨"u1", "glb"⟩⟩, templatePath]).1
          (run_pipeline_task procsOkEx jEx.inputPath jEx.templatePath jEx.outputPath jEx.taskId
            (setTask [] "t1" TaskState.processing)
            [⟨UPLOAD_FOLDER, ⟨"u1", "glb"⟩⟩, templatePath]).2
        = (UploadResponse.accepted "t2",
           setTask
             (run_pipeline_task procsOkEx jEx.inputPath jEx.templatePath jEx.outputPath jEx.taskId
               (setTask [] "t1" TaskState.processing)
               [⟨UPLOAD_FOLDER, ⟨"u1", "glb"⟩⟩, templatePath]).1
             "t2" (TaskState.success ⟨OUTPUT_FOLDER, ⟨hashFnEx [7], "glb"⟩⟩),
           (run_pipeline_task procsOkEx jEx.inputPath jEx.templatePath jEx.outputPath jEx.taskId
             (setTask [] "t1" TaskState.processing)
             [⟨UPLOAD_FOLDER, ⟨"u1", "glb"⟩⟩, templatePath]).2,
           none) ∧
        getTask
            (run_pipeline_task procsOkEx jEx.inputPath jEx.templatePath jEx.outputPath jEx.taskId
              (setTask [] "t1" TaskState.processing)
              [⟨UPLOAD_FOLDER, ⟨"u1", "glb"⟩⟩, templatePath]).1
            jEx.taskId
          = some (TaskState.success ⟨OUTPUT_FOLDER, ⟨hashFnEx [7], "glb"⟩⟩)) :=
  ⟨by decide,
    c6_cache_idempotent hashFnEx procsOkEx "model.glb" "copy.glb" "u1" "u2" "t1" "t2" [7] "" ""
      (UploadResponse.accepted "t1") (setTask [] "t1" TaskState.processing)
      [⟨UPLOAD_FOLDER, ⟨"u1", "glb"⟩⟩, templatePath] jEx
      (by decide) (by decide) (by decide) rfl rfl (by decide)⟩

/-- The worker always finishes by writing a terminal state (SUCCESS or
FAILURE) for its own task id. -/
theorem run_pipeline_task_sets_task
    (procs : PipelineProcs) (inputPath tmplPath outputPath : FPath) (tid : String)
    (tasks : Tasks) (fs : FS) :
    ∃ st, (run_pipeline_task procs inputPath tmplPath outputPath tid tasks fs).1
        = setTask tasks tid st ∧ st.isTerminal = true := by
  unfold run_pipeline_task
  split
  · exact ⟨_, rfl, rfl⟩
  · exact ⟨_, rfl, rfl⟩

/-- The `/upload` endpoint either leaves the task table unchanged, or writes
only the fresh task id — and it starts a thread only in the branch that sets
that id to PROCESSING. -/
theorem upload_shape (hashFn : List Nat → String) (req : UploadRequest) (uu tid : String)
    (tasks : Tasks) (fs : FS) :
    ((upload hashFn req uu tid tasks fs).2.1 = tasks ∧
      (upload hashFn req uu tid tasks fs).2.2.2 = none) ∨
    (∃ st0, (upload hashFn req uu tid tasks fs).2.1 = setTask tasks tid st0 ∧
      (upload hashFn req uu tid tasks fs).2.2.2 = none) ∨
    ((upload hashFn req uu tid tasks fs).2.1 = setTask tasks tid TaskState.processing ∧
      ∃ j0, (upload hashFn req uu tid tasks fs).2.2.2 = some j0 ∧ j0.taskId = tid) := by
  cases req with
  | noFilePart => exact Or.inl ⟨rfl, rfl⟩
  | withFile fn d =>
    simp only [upload]
    split
    · exact Or.inl ⟨rfl, rfl⟩
    split
    · exact Or.inl ⟨rfl, rfl⟩
    split
    · exact Or.inl ⟨rfl, rfl⟩
    split
    · exact Or.inr (Or.inl ⟨_, rfl, rfl⟩)
    split
    · exact Or.inl ⟨rfl, rfl⟩
    · exact Or.inr (Or.inr ⟨rfl, _, rfl, rfl⟩)

/-- Every observable operation preserves the system invariant. -/
theorem sysInv_preserved (hashFn : List Nat → String) (s s' : SysState)
    (hInv : SysInv s) (hstep : SysStep hashFn s s') : SysInv s' := by
  obtain ⟨hproc, hnodup⟩ := hInv
  cases hstep with
  | statusQuery tid => exact ⟨hproc, hnodup⟩
  | downloadQuery tid => exact ⟨hproc, hnodup⟩
  | upload req uu tid hfresh =>
    have htasks : (uploadStep hashFn req uu tid s).tasks
        = (upload hashFn req uu tid s.tasks s.fs).2.1 := rfl
    have hpend : (uploadStep hashFn req uu tid s).pending
        = s.pending ++ (upload hashFn req uu tid s.tasks s.fs).2.2.2.toList := rfl
    have hne_of_mem : ∀ job ∈ s.pending, job.taskId ≠ tid := by
      intro job hjob c
      have h1 := hproc job hjob
      rw [c, hfresh] at h1
      cases h1
    rcases upload_shape hashFn req uu tid s.tasks s.fs with
      ⟨ht, hn⟩ | ⟨st0, ht, hn⟩ | ⟨ht, j0, hn, hid⟩
    · constructor
      · intro job hjob
        rw [hpend, hn] at hjob
        simp only [Option.toList_none, List.append_nil] at hjob
        rw [htasks, ht]
        exact hproc job hjob
      · rw [hpend, hn]
        simpa using hnodup
    · constructor
      · intro job hjob
        rw [hpend, hn] at hjob
        simp only [Option.toList_none, List.append_nil] at hjob
        rw [htasks, ht, getTask_setTask_ne _ _ _ _ (hne_of_mem job hjob)]
        exact hproc job hjob
      · rw [hpend, hn]
        simpa using hnodup
    · constructor
      · intro job hjob
        rw [hpend, hn] at hjob
        simp only [Option.toList_some, List.mem_append, List.mem_singleton] at hjob
        rw [htasks, ht]
        rcases hjob with hjob | hjob
        · rw [getTask_setTask_ne _ _ _ _ (hne_of_mem job hjob)]
          exact hproc job hjob
        · rw [hjob, hid]
          exact getTask_setTask_self s.tasks tid TaskState.processing
      · rw [hpend, hn]
        simp only [Option.toList_some, List.map_append, List.map_cons, List.map_nil]
        rw [List.nodup_append]
        refine ⟨hnodup, List.nodup_singleton _, ?_⟩
        intro x hx hx'
        simp only [List.mem_singleton] at hx'
        obtain ⟨job, hjob, hjid⟩ := List.mem_map.mp hx
        exact hne_of_mem job hjob (hjid.trans (hx'.trans hid))
  | worker job procs hjob =>
    have htasks : (workerStep procs job s).tasks
        = (run_pipeline_task procs job.inputPath job.templatePath job.outputPath
            job.taskId s.tasks s.fs).1 := rfl
    have hpend : (workerStep procs job s).pending = s.pending.erase job := rfl
    obtain ⟨st', hset, -⟩ := run_pipeline_task_sets_task procs job.inputPath job.templatePath
      job.outputPath job.taskId s.tasks s.fs
    have hpnodup : s.pending.Nodup := List.Nodup.of_map PendingJob.taskId hnodup
    constructor
    · intro job' hjob'
      rw [hpend] at hjob'
      have hj' := (List.Nodup.mem_erase_iff hpnodup).mp hjob'
      have hid_ne : job'.taskId ≠ job.taskId := by
        intro c
        exact hj'.1 (List.inj_on_of_nodup_map hnodup hj'.2 hjob c)
      rw [htasks, hset, getTask_setTask_ne _ _ _ _ hid_ne]
      exact hproc job' hj'.2
    · rw [hpend]
      exact List.Nodup.sublist (List.erase_sublist job s.pending)
        (List.Nodup.of_map PendingJob.taskId hnodup) |>.map_on
        (fun x hx y hy hxy => List.inj_on_of_nodup_map hnodup
          (List.mem_of_mem_erase hx) (List.mem_of_mem_erase hy) hxy)

/-- One observable operation never changes a task that is already in a
terminal state. -/
theorem terminal_preserved_step (hashFn : List Nat → String) (s s' : SysState)
    (t : String) (st : TaskState)
    (hInv : SysInv s) (hterm : getTask s.tasks t = some st) (hT : st.isTerminal = true)
    (hstep : SysStep hashFn s s') : getTask s'.tasks t = some st := by
  cases hstep with
  | statusQuery tid => exact hterm
  | downloadQuery tid => exact hterm
  | upload req uu tid hfresh =>
    have htasks : (uploadStep hashFn req uu tid s).tasks
        = (upload hashFn req uu tid s.tasks s.fs).2.1 := rfl
    have hne : t ≠ tid := by
      intro c
      rw [c, hfresh] at hterm
      cases hterm
    rcases upload_shape hashFn req uu tid s.tasks s.fs with
      ⟨ht, -⟩ | ⟨st0, ht, -⟩ | ⟨ht, -⟩
    · rw [htasks, ht]; exact hterm
    · rw [htasks, ht, getTask_setTask_ne _ _ _ _ hne]; exact hterm
    · rw [htasks, ht, getTask_setTask_ne _ _ _ _ hne]; exact hterm
  | worker job procs hjob =>
    have htasks : (workerStep procs job s).tasks
        = (run_pipeline_task procs job.inputPath job.templatePath job.outputPath
            job.taskId s.tasks s.fs).1 := rfl
    obtain ⟨st', hset, -⟩ := run_pipeline_task_sets_task procs job.inputPath job.templatePath
      job.outputPath job.taskId s.tasks s.fs
    have hne : t ≠ job.taskId := by
      intro c
      rw [c] at hterm
      rw [hInv.1 job hjob] at hterm
      injection hterm with e
      rw [← e] at hT
      simp [TaskState.isTerminal] at hT
    rw [htasks, hset, getTask_setTask_ne _ _ _ _ hne]
    exact hterm

/-- The invariant holds along any sequence of operations. -/
theorem sysInv_steps (hashFn : List Nat → String) (s s' : SysState)
    (hInv : SysInv s) (h : SysSteps hashFn s s') : SysInv s' := by
  induction h with
  | refl => exact hInv
  | tail h1 h2 ih => exact sysInv_preserved hashFn _ _ ih h2

/-- Claim C7: starting from a fresh server (empty task table, no running
threads), once a task's recorded state is terminal (SUCCESS or FAILURE), no
subsequent sequence of operations — later uploads, worker completions, or
status/download queries — changes that task's entry: its status, error
detail and result path stay exactly as recorded. -/
theorem c7_terminal_state_immutable
    (hashFn : List Nat → String) (s0 s s' : SysState) (t : String) (st : TaskState)
    (hInit : s0.tasks = [] ∧ s0.pending = [])
    (hreach : SysSteps hashFn s0 s)
    (hterm : getTask s.tasks t = some st)
    (hT : st.isTerminal = true)
    (hsteps : SysSteps hashFn s s') :
    getTask s'.tasks t = some st := by
  have hInv0 : SysInv s0 := by
    constructor
    · intro job hjob
      rw [hInit.2] at hjob
      cases hjob
    · rw [hInit.2]
      exact List.nodup_nil
  have hInv : SysInv s := sysInv_steps hashFn s0 s hInv0 hreach
  induction hsteps with
  | refl => exact hterm
  | tail h1 h2 ih =>
    exact terminal_preserved_step hashFn _ _ t st
      (sysInv_steps hashFn _ _ hInv h1) ih hT h2

/-- Witness for C7: a concrete two-upload trace; the first upload hits the
cache and creates task "t1" directly in SUCCESS, the second upload does not
change it. -/
theorem c7_terminal_state_immutable_witness :
    getTask (uploadStep hashFnEx (UploadRequest.withFile "copy.glb" [7]) "u2" "t2"
        (uploadStep hashFnEx (UploadRequest.withFile "model.glb" [7]) "u1" "t1"
          sysInitCacheEx)).tasks "t1"
      = some (TaskState.success ⟨OUTPUT_FOLDER, ⟨"cafe", "glb"⟩⟩) :=
  c7_terminal_state_immutable hashFnEx sysInitCacheEx
    (uploadStep hashFnEx (UploadRequest.withFile "model.glb" [7]) "u1" "t1" sysInitCacheEx)
    (uploadStep hashFnEx (UploadRequest.withFile "copy.glb" [7]) "u2" "t2"
      (uploadStep hashFnEx (UploadRequest.withFile "model.glb" [7]) "u1" "t1" sysInitCacheEx))
    "t1" (TaskState.success ⟨OUTPUT_FOLDER, ⟨"cafe", "glb"⟩⟩)
    ⟨rfl, rfl⟩
    (Relation.ReflTransGen.single
      (SysStep.upload sysInitCacheEx (UploadRequest.withFile "model.glb" [7]) "u1" "t1"
        (by decide)))
    (by decide) (by decide)
    (Relation.ReflTransGen.single
      (SysStep.upload _ (UploadRequest.withFile "copy.glb" [7]) "u2" "t2" (by decide)))
